import Mathlib

/-!
Verification of the Accolade event-registration portal (Express + Supabase).

The development shallowly embeds the server's validators, the sanitizer, the
in-memory session store, and the registration write-path handlers
(`POST /api/register` in both deployment variants, `PUT /api/sales/:id`,
`DELETE /api/sales/:id`).  The database is modelled as explicit lists of
rows; each Supabase call becomes a pure function on that state, with the
unique-constraint and foreign-key behaviour of the persistence layer made
explicit in the insert/update steps.
-/

namespace Accolade

/-! ### JS string primitives -/

/-- The character class removed by `sanitize`: the regex `[<>"'`]`
(`replace(/[<>"'`]/g, '')` in both variants). -/
def isStrippedChar (c : Char) : Bool :=
  c == '<' || c == '>' || c == '\x22' || c == '\x27' || c == '\x60'

/-- JavaScript `String.prototype.trim` whitespace: WhiteSpace plus
LineTerminator code points (TAB, LF, VT, FF, CR, SP, NBSP, Ogham space,
U+2000..U+200A, LS, PS, NNBSP, MMSP, ideographic space, BOM). -/
def isJsWhitespace (c : Char) : Bool :=
  let n := c.toNat
  n == 0x09 || n == 0x0A || n == 0x0B || n == 0x0C || n == 0x0D || n == 0x20 ||
  n == 0xA0 || n == 0x1680 || (0x2000 <= n && n <= 0x200A) || n == 0x2028 ||
  n == 0x2029 || n == 0x202F || n == 0x205F || n == 0x3000 || n == 0xFEFF

/-- `String.prototype.trim` on a character list: drop leading and trailing
whitespace. -/
def jsTrimList (l : List Char) : List Char :=
  ((l.dropWhile isJsWhitespace).reverse.dropWhile isJsWhitespace).reverse

/-- `sanitize(v)` from both variants:
`String(v).trim().replace(/[<>"'`]/g, '').slice(0, 500)`. -/
def sanitize (s : String) : String :=
  ⟨(((jsTrimList s.data).filter (fun c => !isStrippedChar c)).take 500)⟩

/-! ### Validators -/

/-- Anchored run of exactly `n` characters satisfying `p`, consuming the rest
of the input on success (the anchored regex body `p{n}` followed by `$` when
the remainder must be empty). -/
def matchRun (p : Char → Bool) : Nat → List Char → Option (List Char)
  | 0, cs => some cs
  | _ + 1, [] => none
  | n + 1, c :: cs => if p c then matchRun p n cs else none

/-- `isPhone(v)`: the regex `/^\d{10}$/` (ASCII digits only, anchored at both
ends). -/
def isPhone (s : String) : Bool :=
  matchRun Char.isDigit 10 s.data == some []

/-- `isEmail(v)`: `typeof v === 'string' && v.includes('@') && v.length <= 254`
(the string-typed domain is the embedding's `String`; `includes` of a
single-character needle is a character-membership test). -/
def isEmail (s : String) : Bool :=
  s.data.any (fun c => c == '@') && s.length ≤ 254

/-- `String.prototype.toLowerCase` / `toUpperCase` as per-character maps
(the handlers only feed them ASCII text). -/
def jsToLower (s : String) : String :=
  ⟨s.data.map Char.toLower⟩

def jsToUpper (s : String) : String :=
  ⟨s.data.map Char.toUpper⟩

/-- A hexadecimal digit, case-insensitive (the class `[0-9a-f]` under the `i`
flag). -/
def isHexChar (c : Char) : Bool :=
  c.isDigit || ('a' ≤ c && c ≤ 'f') || ('A' ≤ c && c ≤ 'F')

/-- Hyphen-separated groups of hexadecimal runs, anchored. -/
def matchHexGroups : List Nat → List Char → Bool
  | [], [] => true
  | [], _ :: _ => false
  | [n], cs => matchRun isHexChar n cs == some []
  | n :: m :: ns, cs =>
    match matchRun isHexChar n cs with
    | some ('-' :: rest) => matchHexGroups (m :: ns) rest
    | _ => false

/-- `isUUID(v)`: the regex
`/^[0-9a-f]{8}-[0-9a-f]{4}-[0-9a-f]{4}-[0-9a-f]{4}-[0-9a-f]{12}$/i`. -/
def isUUID (s : String) : Bool :=
  matchHexGroups [8, 4, 4, 4, 12] s.data

/-! ### Basic lemmas about the primitives -/

theorem jsTrimList_length_le (l : List Char) : (jsTrimList l).length ≤ l.length := by
  unfold jsTrimList
  calc ((l.dropWhile isJsWhitespace).reverse.dropWhile isJsWhitespace).reverse.length
      = ((l.dropWhile isJsWhitespace).reverse.dropWhile isJsWhitespace).length := by
        rw [List.length_reverse]
    _ ≤ (l.dropWhile isJsWhitespace).reverse.length :=
        ((l.dropWhile isJsWhitespace).reverse.dropWhile_sublist isJsWhitespace).length_le
    _ = (l.dropWhile isJsWhitespace).length := by rw [List.length_reverse]
    _ ≤ l.length := (l.dropWhile_sublist isJsWhitespace).length_le

theorem sanitize_length_le (s : String) : (sanitize s).length ≤ s.length := by
  show (((jsTrimList s.data).filter _).take 500).length ≤ s.data.length
  calc (((jsTrimList s.data).filter (fun c => !isStrippedChar c)).take 500).length
      ≤ ((jsTrimList s.data).filter (fun c => !isStrippedChar c)).length :=
        (List.take_sublist _ _).length_le
    _ ≤ (jsTrimList s.data).length := (jsTrimList s.data).length_filter_le _
    _ ≤ s.data.length := jsTrimList_length_le s.data

theorem matchRun_eq_some_nil (p : Char → Bool) :
    ∀ (n : Nat) (cs : List Char),
      matchRun p n cs = some [] ↔ cs.length = n ∧ ∀ c ∈ cs, p c = true := by
  intro n
  induction n with
  | zero =>
    intro cs
    cases cs with
    | nil => simp [matchRun]
    | cons c cs => simp [matchRun]
  | succ n ih =>
    intro cs
    cases cs with
    | nil => simp [matchRun]
    | cons c cs =>
      simp only [matchRun]
      by_cases hc : p c = true
      · simp only [hc, if_true, ih cs, List.length_cons, Nat.succ_inj,
          List.mem_cons]
        constructor
        · rintro ⟨hl, hall⟩
          exact ⟨hl, fun d hd => hd.elim (fun he => he ▸ hc) (hall d)⟩
        · rintro ⟨hl, hall⟩
          exact ⟨hl, fun d hd => hall d (Or.inr hd)⟩
      · simp only [hc, if_false]
        constructor
        · intro h; exact absurd h (by simp)
        · rintro ⟨-, hall⟩
          exact absurd (hall c (List.mem_cons_self c cs)) (by simp [hc])

/-! ### Data model

Rows of the four Supabase tables used by the write path.  `cost` and
`amount_paid` are numeric columns; `transactionId = none` models SQL `NULL`,
and `amountPaid = none` models a missing value (the JS `undefined` the batch
variant can produce). -/

structure Event where
  id : String
  title : String
  cost : Int
deriving DecidableEq

structure Student where
  id : String
  /-- `student_id`, the external human code (second deployment variant);
  the phone-keyed variant leaves it empty. -/
  code : String
  name : String
  phone : String
  email : String
deriving DecidableEq

structure Registration where
  id : String
  studentId : String
  eventId : String
  memberId : String
  paymentMethod : String
  transactionId : Option String
  amountPaid : Option Int
deriving DecidableEq

structure DB where
  events : List Event
  students : List Student
  registrations : List Registration
deriving DecidableEq

/-- Two registrations with the same `(student_id, event_id)` key — the pair
covered by the persistence layer's unique constraint. -/
def sameKeyPair (a b : Registration) : Bool :=
  a.studentId == b.studentId && a.eventId == b.eventId

/-- No two rows of the list share a `(student_id, event_id)` pair. -/
def pairsNodup : List Registration → Bool
  | [] => true
  | r :: rs => !(rs.any (sameKeyPair r)) && pairsNodup rs

/-- A persistence-layer error, with the Postgres error code surfaced by
Supabase (`23505` unique violation, `23503` foreign-key violation). -/
structure DbErr where
  code : String
  message : String
deriving DecidableEq

/-- `db.from('Registrations').insert(rows)`: the batch insert as executed by
the persistence layer — it enforces the foreign key on `event_id` and the
unique constraint on `(student_id, event_id)`, and commits either every row
or none. -/
def insertRegs (db : DB) (rows : List Registration) : Except DbErr DB :=
  if rows.any (fun r => !(db.events.any (fun e => e.id == r.eventId))) then
    .error ⟨"23503", "violates foreign key constraint"⟩
  else if rows.any (fun r => db.registrations.any (sameKeyPair r)) ||
      !(pairsNodup rows) then
    .error ⟨"23505", "duplicate key value violates unique constraint"⟩
  else
    .ok { db with registrations := db.registrations ++ rows }

/-! ### POST /api/register — single-event variant (`server.js`) -/

/-- The request body of the single-event `POST /api/register`.  A missing
field is the empty string (JS `undefined` and `''` are equally falsy in the
handler's checks).  `amount` models any client-supplied amount/cost field
riding along in the payload; the handler never reads it. -/
structure RegisterReq where
  name : String
  phone : String
  email : String
  event_id : String
  payment_method : String
  transaction_id : String
  amount : Option Int
deriving DecidableEq

inductive SingleResp where
  | ok
  | err (status : Nat) (msg : String)
deriving DecidableEq

/-- `db.from('Events').select('cost').eq('id', event_id).single()`:
`single()` succeeds exactly when the filter returns one row. -/
def selectEventCost (db : DB) (eventId : String) : Option Int :=
  match db.events.filter (fun e => e.id == eventId) with
  | [e] => some e.cost
  | _ => none

/-- The field assignment of the single-variant student update
(`update({name, email}).eq('id', sidKey)`). -/
def updStudentSingle (req : RegisterReq) (sidKey : String) (s : Student) :
    Student :=
  if s.id == sidKey then
    { s with name := sanitize req.name, email := jsToLower (sanitize req.email) }
  else s

/-- The row the single variant inserts for a new student. -/
def newStudentSingle (req : RegisterReq) (fresh : String) : Student :=
  { id := fresh, code := "", name := sanitize req.name, phone := req.phone,
    email := jsToLower (sanitize req.email) }

/-- The student upsert of the single-event variant, keyed by phone number:
find by `phone_number`; if found, update `name`/`email`; otherwise insert,
which the persistence layer rejects with `23505` when the email is already
claimed by another student. -/
def upsertStudentByPhone (db : DB) (req : RegisterReq) (fresh : String) :
    Except (SingleResp × DB) (String × DB) :=
  match db.students.find? (fun s => s.phone == req.phone) with
  | some stu =>
    .ok (stu.id,
      { db with students := db.students.map (updStudentSingle req stu.id) })
  | none =>
    if db.students.any (fun s => s.email == jsToLower (sanitize req.email)) then
      .error (.err 400 "Email already used by another student.", db)
    else
      .ok (fresh, { db with students := db.students ++ [newStudentSingle req fresh] })

/-- The object the single-event variant passes to
`db.from('Registrations').insert({...})`. -/
def regRowSingle (req : RegisterReq) (memberId sid rid : String)
    (cost : Int) : Registration :=
  { id := rid
    studentId := sid
    eventId := req.event_id
    memberId := memberId
    paymentMethod := req.payment_method
    transactionId :=
      if req.payment_method == "upi" then
        (if req.transaction_id == "" then none
         else some (sanitize req.transaction_id))
      else none
    amountPaid := some cost }

/-- The persistence phase of the single-event `POST /api/register`
(everything after the validation early returns): event-cost read, student
upsert by phone, registration insert. -/
def registerSingleCore (db : DB) (req : RegisterReq)
    (memberId freshStu freshReg : String) : SingleResp × DB :=
  match selectEventCost db req.event_id with
  | none => (.err 400 "Event not found.", db)
  | some cost =>
    match upsertStudentByPhone db req freshStu with
    | .error r => r
    | .ok (sid, db1) =>
      match insertRegs db1 [regRowSingle req memberId sid freshReg cost] with
      | .error e =>
        if e.code == "23505" then
          (.err 400 "Student already registered for this event.", db1)
        else (.err 500 "Failed to create registration.", db1)
      | .ok db2 => (.ok, db2)

/-- `POST /api/register`, single-event variant (`server.js`): validation,
then the persistence phase.  `memberId` is the session identity
(`req.user.id`); `freshStu`/`freshReg` are the ids the database would
generate for inserted rows. -/
def registerSingle (db : DB) (req : RegisterReq)
    (memberId freshStu freshReg : String) : SingleResp × DB :=
  if req.name == "" || req.phone == "" || req.email == "" ||
      req.event_id == "" || req.payment_method == "" then
    (.err 400 "Missing required fields.", db)
  else if !isPhone req.phone then
    (.err 400 "Phone must be exactly 10 digits.", db)
  else if !isEmail req.email then
    (.err 400 "Invalid email address.", db)
  else if !isUUID req.event_id then
    (.err 400 "Invalid event.", db)
  else if !(req.payment_method == "cash" || req.payment_method == "upi") then
    (.err 400 "Invalid payment method.", db)
  else if req.payment_method == "upi" && req.transaction_id == "" then
    (.err 400 "UPI transaction ID required.", db)
  else
    registerSingleCore db req memberId freshStu freshReg

/-- The validation conjunction of the single-event registration: exactly the
conditions under which none of the handler's early 400 returns fire. -/
def singleGuardsOk (req : RegisterReq) : Prop :=
  req.name ≠ "" ∧ req.phone ≠ "" ∧ req.email ≠ "" ∧ req.event_id ≠ "" ∧
  req.payment_method ≠ "" ∧
  isPhone req.phone = true ∧ isEmail req.email = true ∧
  isUUID req.event_id = true ∧
  (req.payment_method = "cash" ∨ req.payment_method = "upi") ∧
  (req.payment_method = "upi" → req.transaction_id ≠ "")

instance (req : RegisterReq) : Decidable (singleGuardsOk req) := by
  unfold singleGuardsOk
  infer_instance

/-! ### POST /api/register — multi-event variant (second document of the
unnamed source file) -/

/-- The request body of the multi-event `POST /api/register`.  As above,
missing string fields are `""`, and `amount` is a client-supplied amount the
handler never reads. -/
structure BatchReq where
  student_id : String
  name : String
  phone : String
  email : String
  event_ids : List String
  payment_method : String
  transaction_id : String
  amount : Option Int
deriving DecidableEq

inductive BatchResp where
  | ok (count skipped : Nat)
  | err (status : Nat) (msg : String)
deriving DecidableEq

/-- The field assignment of the batch-variant student update
(`update({name, email, phone_number}).eq('id', sidKey)`). -/
def updStudentBatch (req : BatchReq) (sidKey : String) (s : Student) :
    Student :=
  if s.id == sidKey then
    { s with
      name := sanitize req.name
      email := jsToLower (sanitize req.email)
      phone := req.phone }
  else s

/-- The row the batch variant inserts for a new student. -/
def newStudentBatch (req : BatchReq) (fresh : String) : Student :=
  { id := fresh, code := jsToUpper (sanitize req.student_id),
    name := sanitize req.name, phone := req.phone,
    email := jsToLower (sanitize req.email) }

/-- The student upsert of the multi-event variant, keyed by the external
`student_id` code: find by code; if found, update `name`/`email`/
`phone_number`; otherwise insert, which the persistence layer rejects with
`23505` when the phone or email is already claimed by another student. -/
def upsertStudentByCode (db : DB) (req : BatchReq) (fresh : String) :
    Except (BatchResp × DB) (String × DB) :=
  match db.students.find? (fun s => s.code == jsToUpper (sanitize req.student_id)) with
  | some stu =>
    .ok (stu.id,
      { db with students := db.students.map (updStudentBatch req stu.id) })
  | none =>
    if db.students.any (fun s =>
        s.phone == req.phone || s.email == jsToLower (sanitize req.email)) then
      .error (.err 400 "Phone or email already used by another student.", db)
    else
      .ok (fresh, { db with students := db.students ++ [newStudentBatch req fresh] })

/-- `Object.fromEntries(eventsData.map(e => [e.id, e.cost]))[eid]`: a later
entry overwrites an earlier one with the same key, so the lookup returns the
last matching cost. -/
def eventMapLookup (evs : List Event) (eid : String) : Option Int :=
  (evs.reverse.find? (fun e => e.id == eid)).map (fun e => e.cost)

/-- One row of the batch insert object array of the multi-event variant.
`amount_paid` is `eventMap[eid]`, which is `undefined` (here `none`) when the
event id was absent from the batch event read. -/
def regRowBatch (req : BatchReq) (memberId sid : String)
    (newRegId : String → String) (evs : List Event) (eid : String) :
    Registration :=
  { id := newRegId eid
    studentId := sid
    eventId := eid
    memberId := memberId
    paymentMethod := req.payment_method
    transactionId :=
      if req.payment_method == "upi" then
        (if req.transaction_id == "" then none
         else some (sanitize req.transaction_id))
      else none
    amountPaid := eventMapLookup evs eid }

/-- `db.from('Events').select('id, cost').in('id', event_ids)`. -/
def eventsDataOf (db : DB) (req : BatchReq) : List Event :=
  db.events.filter (fun e => req.event_ids.contains e.id)

/-- `new Set(existingRegs.map(r => r.event_id))`: the distinct event ids of
the student's existing registrations among the requested ones (only
membership and size of the set are consumed, so a duplicate-free list is a
faithful model). -/
def alreadyRegisteredOf (db1 : DB) (req : BatchReq) (sid : String) :
    List String :=
  ((db1.registrations.filter (fun r =>
    r.studentId == sid && req.event_ids.contains r.eventId)).map
      (fun r => r.eventId)).dedup

/-- `event_ids.filter(eid => !alreadyRegistered.has(eid))`. -/
def newEventIdsOf (db1 : DB) (req : BatchReq) (sid : String) : List String :=
  req.event_ids.filter (fun eid =>
    !((alreadyRegisteredOf db1 req sid).contains eid))

/-- The persistence phase of the multi-event `POST /api/register`: batch
event read, student upsert by code, duplicate pre-check, batch insert.
`interf` models registrations committed by concurrent requests between the
pre-check and the insert (the check-then-act race window of the spec); a
sequential run has `interf = []`. -/
def registerBatchCore (db : DB) (req : BatchReq) (memberId freshStu : String)
    (newRegId : String → String) (interf : List Registration) :
    BatchResp × DB :=
  if (eventsDataOf db req).isEmpty then
    (.err 400 "One or more events not found.", db)
  else
    match upsertStudentByCode db req freshStu with
    | .error r => r
    | .ok (sid, db1) =>
      if (newEventIdsOf db1 req sid).isEmpty then
        (.err 400 "Student is already registered for all selected events.", db1)
      else
        let rows := (newEventIdsOf db1 req sid).map
          (regRowBatch req memberId sid newRegId (eventsDataOf db req))
        let db2 := { db1 with registrations := db1.registrations ++ interf }
        match insertRegs db2 rows with
        | .error e =>
          (.err 500 ("Failed to create registration: " ++ e.message), db2)
        | .ok db3 =>
          (.ok rows.length (alreadyRegisteredOf db1 req sid).length, db3)

/-- `POST /api/register`, multi-event variant: validation, then the
persistence phase. -/
def registerBatch (db : DB) (req : BatchReq) (memberId freshStu : String)
    (newRegId : String → String) (interf : List Registration) :
    BatchResp × DB :=
  if req.student_id == "" || req.name == "" || req.phone == "" ||
      req.email == "" || req.event_ids.isEmpty || req.payment_method == "" then
    (.err 400 "Missing required fields.", db)
  else if !isPhone req.phone then
    (.err 400 "Phone must be 10 digits.", db)
  else if !isEmail req.email then
    (.err 400 "Invalid email.", db)
  else if req.event_ids.any (fun id => !isUUID id) then
    (.err 400 "Invalid event selection.", db)
  else if !(req.payment_method == "cash" || req.payment_method == "upi") then
    (.err 400 "Invalid payment method.", db)
  else if req.payment_method == "upi" && req.transaction_id == "" then
    (.err 400 "UPI transaction ID required.", db)
  else
    registerBatchCore db req memberId freshStu newRegId interf

/-- The validation conjunction of the multi-event registration: exactly the
conditions under which none of the handler's early 400 returns fire. -/
def batchGuardsOk (req : BatchReq) : Prop :=
  req.student_id ≠ "" ∧ req.name ≠ "" ∧ req.phone ≠ "" ∧ req.email ≠ "" ∧
  req.event_ids ≠ [] ∧ req.payment_method ≠ "" ∧
  isPhone req.phone = true ∧ isEmail req.email = true ∧
  (∀ eid ∈ req.event_ids, isUUID eid = true) ∧
  (req.payment_method = "cash" ∨ req.payment_method = "upi") ∧
  (req.payment_method = "upi" → req.transaction_id ≠ "")

instance (req : BatchReq) : Decidable (batchGuardsOk req) := by
  unfold batchGuardsOk
  infer_instance

/-! ### Sessions (`POST /api/login`, `POST /api/logout`, `requireAuth`) -/

structure Identity where
  id : String
  name : String
  email : String
  role : String
deriving DecidableEq

structure SessionEntry where
  token : String
  ident : Identity
  /-- Absolute time (ms) at which the `setTimeout` scheduled at login
  deletes this entry. -/
  expiry : Nat
deriving DecidableEq

/-- The process-wide `sessions` map; `Map.set` overwrite semantics are given
by prepending together with first-match lookup. -/
def SessionStore := List SessionEntry

/-- `setTimeout(() => sessions.delete(token), 12 * 60 * 60 * 1000)`. -/
def sessionTTLMillis : Nat := 12 * 60 * 60 * 1000

/-- Login at time `now`: `sessions.set(token, identity)` — overwrite
semantics of `Map.set` — plus the scheduled deletion 12 hours later. -/
def loginCreate (s : SessionStore) (tok : String) (ident : Identity)
    (now : Nat) : SessionStore :=
  ⟨tok, ident, now + sessionTTLMillis⟩ :: s.filter (fun e => !(e.token == tok))

/-- The event loop runs every timer whose deadline has been reached: at time
`now`, all entries with `expiry ≤ now` have been deleted. -/
def fireDueTimers (s : SessionStore) (now : Nat) : SessionStore :=
  s.filter (fun e => now < e.expiry)

/-- `sessions.get(token)` / `sessions.has(token)`. -/
def resolveSession (s : SessionStore) (tok : String) : Option Identity :=
  (s.find? (fun e => e.token == tok)).map (fun e => e.ident)

/-- `POST /api/logout`: `sessions.delete(req.headers['x-session'])`. -/
def logout (s : SessionStore) (tok : String) : SessionStore :=
  s.filter (fun e => !(e.token == tok))

/-- `requireAuth` observed at time `now`: the token resolves only if its
entry is still present once every due timer has fired; `none` is the 401
"Not logged in." rejection. -/
def requireAuthAt (s : SessionStore) (tok : String) (now : Nat) :
    Option Identity :=
  resolveSession (fireDueTimers s now) tok

/-! ### PUT /api/sales/:id and DELETE /api/sales/:id -/

/-- The acting session identity as the sales routes see it
(`req.user.id`, `req.user.role`). -/
structure Actor where
  id : String
  role : String
deriving DecidableEq

/-- The request body of `PUT /api/sales/:id`. -/
structure PutSaleReq where
  student_id : String
  name : String
  phone : String
  email : String
  event_id : String
  payment_method : String
  transaction_id : String
deriving DecidableEq

/-- The field assignment of the registration update
(`db.from('Registrations').update({...}).eq('id', id)`). -/
def applySaleUpdate (r : Registration) (req : PutSaleReq) (cost : Int) :
    Registration :=
  { r with
    eventId := req.event_id
    paymentMethod := req.payment_method
    transactionId :=
      if req.payment_method == "upi" then
        (if req.transaction_id == "" then none
         else some (sanitize req.transaction_id))
      else none
    amountPaid := some cost }

/-- The unique `(student_id, event_id)` constraint check the persistence
layer applies to the registration update: it fails when some row being
updated would collide with a distinct row. -/
def saleUpdateConflict (regs : List Registration) (saleId : String)
    (req : PutSaleReq) : Bool :=
  regs.any (fun r => r.id == saleId && regs.any (fun r2 =>
    !(r2.id == saleId) && r2.studentId == r.studentId &&
    r2.eventId == req.event_id))

/-- The rows after `update(...).eq('id', id)`. -/
def updateSaleRows (regs : List Registration) (saleId : String)
    (req : PutSaleReq) (cost : Int) : List Registration :=
  regs.map (fun r => if r.id == saleId then applySaleUpdate r req cost else r)

/-- The student-contact update performed by the sales edit
(`db.from('Students').update({name, phone_number, email}).eq('id', student_id)`). -/
def updateStudentContact (students : List Student) (req : PutSaleReq) :
    List Student :=
  students.map (fun s =>
    if s.id == req.student_id then
      { s with
        name := sanitize req.name
        phone := req.phone
        email := jsToLower (sanitize req.email) }
    else s)

/-- `PUT /api/sales/:id` (`server.js` variant, with the admin clause in the
ownership check). -/
def putSale (db : DB) (actor : Actor) (saleId : String) (req : PutSaleReq) :
    SingleResp × DB :=
  if !(isUUID saleId) || !(isUUID req.student_id) || !(isUUID req.event_id) then
    (.err 400 "Invalid IDs.", db)
  else if req.name == "" || req.phone == "" || req.email == "" ||
      req.payment_method == "" then
    (.err 400 "Missing fields.", db)
  else if !isPhone req.phone then
    (.err 400 "Phone must be 10 digits.", db)
  else if !isEmail req.email then
    (.err 400 "Invalid email.", db)
  else if !(req.payment_method == "cash" || req.payment_method == "upi") then
    (.err 400 "Invalid payment method.", db)
  else if req.payment_method == "upi" && req.transaction_id == "" then
    (.err 400 "UPI transaction ID required.", db)
  else
    match db.registrations.find? (fun r => r.id == saleId) with
    | none => (.err 404 "Registration not found.", db)
    | some check =>
      if !(actor.role == "admin") && !(check.memberId == actor.id) then
        (.err 403 "Not authorized.", db)
      else
        match selectEventCost db req.event_id with
        | none => (.err 400 "Event not found.", db)
        | some cost =>
          let db1 := { db with students := updateStudentContact db.students req }
          if saleUpdateConflict db1.registrations saleId req then
            (.err 500 "duplicate key value violates unique constraint", db1)
          else
            (.ok,
             { db1 with
               registrations := updateSaleRows db1.registrations saleId req cost })

/-- `PUT /api/sales/:id`, first-variant form: the session identity carries no
role, and the ownership check is owner-only, folding a missing registration
into the same 403. -/
def putSaleV1 (db : DB) (actorId : String) (saleId : String)
    (req : PutSaleReq) : SingleResp × DB :=
  if req.name == "" || req.phone == "" || req.email == "" ||
      req.event_id == "" || req.payment_method == "" then
    (.err 400 "Missing required fields.", db)
  else if !(isUUID saleId) then
    (.err 400 "Invalid registration ID.", db)
  else if !(isUUID req.student_id) then
    (.err 400 "Invalid student ID.", db)
  else if !isPhone req.phone then
    (.err 400 "Phone must be exactly 10 digits.", db)
  else if !isEmail req.email then
    (.err 400 "Invalid email address.", db)
  else if !(isUUID req.event_id) then
    (.err 400 "Invalid event.", db)
  else if !(req.payment_method == "cash" || req.payment_method == "upi") then
    (.err 400 "Invalid payment method.", db)
  else if req.payment_method == "upi" && req.transaction_id == "" then
    (.err 400 "UPI transaction ID is required.", db)
  else
    match db.registrations.find? (fun r => r.id == saleId) with
    | none => (.err 403 "Not authorized.", db)
    | some check =>
      if !(check.memberId == actorId) then
        (.err 403 "Not authorized.", db)
      else
        match selectEventCost db req.event_id with
        | none => (.err 400 "Event not found.", db)
        | some cost =>
          let db1 := { db with students := updateStudentContact db.students req }
          if saleUpdateConflict db1.registrations saleId req then
            (.err 500 "Failed to update registration.", db1)
          else
            (.ok,
             { db1 with
               registrations := updateSaleRows db1.registrations saleId req cost })

/-- `DELETE /api/sales/:id` (`server.js` variant). -/
def deleteSale (db : DB) (actor : Actor) (saleId : String) :
    SingleResp × DB :=
  if !(isUUID saleId) then
    (.err 400 "Invalid ID.", db)
  else
    match db.registrations.find? (fun r => r.id == saleId) with
    | none => (.err 404 "Not found.", db)
    | some check =>
      if !(actor.role == "admin") && !(check.memberId == actor.id) then
        (.err 403 "Not authorized.", db)
      else
        (.ok, { db with registrations :=
          db.registrations.filter (fun r => !(r.id == saleId)) })

/-! ### Helper lemmas -/

theorem sameKeyPair_eq_true {a b : Registration} :
    sameKeyPair a b = true ↔ a.studentId = b.studentId ∧ a.eventId = b.eventId := by
  simp [sameKeyPair]

theorem sameKeyPair_comm (a b : Registration) :
    sameKeyPair a b = sameKeyPair b a := by
  rw [Bool.eq_iff_iff, sameKeyPair_eq_true, sameKeyPair_eq_true]
  constructor
  · rintro ⟨h1, h2⟩; exact ⟨h1.symm, h2.symm⟩
  · rintro ⟨h1, h2⟩; exact ⟨h1.symm, h2.symm⟩

theorem pairsNodup_append (a b : List Registration)
    (ha : pairsNodup a = true) (hb : pairsNodup b = true)
    (hcross : ∀ r ∈ b, a.any (sameKeyPair r) = false) :
    pairsNodup (a ++ b) = true := by
  induction a with
  | nil => simpa using hb
  | cons r rs ih =>
    have ha1 : rs.any (sameKeyPair r) = false := by
      have h0 := ha
      simp only [pairsNodup, Bool.and_eq_true, Bool.not_eq_true'] at h0
      exact h0.1
    have ha2 : pairsNodup rs = true := by
      have h0 := ha
      simp only [pairsNodup, Bool.and_eq_true] at h0
      exact h0.2
    have hrs : pairsNodup (rs ++ b) = true := by
      refine ih ha2 ?_
      intro x hx
      have h3 := hcross x hx
      simp only [List.any_cons, Bool.or_eq_false_iff] at h3
      exact h3.2
    have hbr : b.any (sameKeyPair r) = false := by
      rw [List.any_eq_false]
      intro x hx
      have h3 := hcross x hx
      simp only [List.any_cons, Bool.or_eq_false_iff] at h3
      rw [Bool.not_eq_true, sameKeyPair_comm]
      exact h3.1
    show pairsNodup (r :: (rs ++ b)) = true
    simp only [pairsNodup, Bool.and_eq_true, Bool.not_eq_true']
    exact ⟨by rw [List.any_append, ha1, hbr, Bool.or_self], hrs⟩

theorem insertRegs_eq_ok (db : DB) (rows : List Registration) (db2 : DB) :
    insertRegs db rows = .ok db2 ↔
      rows.any (fun r => !(db.events.any (fun e => e.id == r.eventId))) = false ∧
      rows.any (fun r => db.registrations.any (sameKeyPair r)) = false ∧
      pairsNodup rows = true ∧
      db2 = { db with registrations := db.registrations ++ rows } := by
  unfold insertRegs
  split
  · rename_i hfk
    simp [hfk]
  · rename_i hfk
    rw [Bool.not_eq_true] at hfk
    split
    · rename_i hdup
      constructor
      · intro h
        exact absurd h (by simp)
      · rintro ⟨-, h2, h3, -⟩
        rw [h2, h3] at hdup
        simp at hdup
    · rename_i hdup
      simp only [Bool.or_eq_true, Bool.not_eq_true', not_or, Bool.not_eq_true,
        Bool.not_eq_false] at hdup
      constructor
      · intro h
        injection h with h
        exact ⟨hfk, hdup.1, hdup.2, h.symm⟩
      · rintro ⟨-, -, -, rfl⟩
        rfl

theorem insertRegs_error (db : DB) (rows : List Registration) (e : DbErr)
    (h : insertRegs db rows = .error e) :
    e.code = "23503" ∨ e.code = "23505" := by
  unfold insertRegs at h
  split at h
  · injection h with h
    subst h
    left
    rfl
  · split at h
    · injection h with h
      subst h
      right
      rfl
    · exact absurd h (by simp)

theorem insertRegs_pairsNodup (db : DB) (rows : List Registration) (db2 : DB)
    (h : insertRegs db rows = .ok db2)
    (hdb : pairsNodup db.registrations = true) :
    pairsNodup db2.registrations = true := by
  rw [insertRegs_eq_ok] at h
  obtain ⟨-, hdup, hrows, rfl⟩ := h
  refine pairsNodup_append _ _ hdb hrows ?_
  rw [List.any_eq_false] at hdup
  intro r hr
  have h1 := hdup r hr
  rwa [Bool.not_eq_true] at h1

theorem upsertStudentByPhone_error (db : DB) (req : RegisterReq) (f : String)
    (r : SingleResp × DB) (h : upsertStudentByPhone db req f = .error r) :
    r = (.err 400 "Email already used by another student.", db) := by
  unfold upsertStudentByPhone at h
  split at h
  · exact absurd h (by simp)
  · split at h
    · injection h with h
      exact h.symm
    · exact absurd h (by simp)

theorem upsertStudentByPhone_ok (db : DB) (req : RegisterReq) (f : String)
    (sid : String) (db1 : DB)
    (h : upsertStudentByPhone db req f = .ok (sid, db1)) :
    db1.registrations = db.registrations ∧ db1.events = db.events := by
  unfold upsertStudentByPhone at h
  split at h
  · injection h with h
    rw [Prod.mk.injEq] at h
    obtain ⟨-, h2⟩ := h
    subst h2
    exact ⟨rfl, rfl⟩
  · split at h
    · exact absurd h (by simp)
    · injection h with h
      rw [Prod.mk.injEq] at h
      obtain ⟨-, h2⟩ := h
      subst h2
      exact ⟨rfl, rfl⟩

theorem selectEventCost_any (db : DB) (eid : String) (cost : Int)
    (h : selectEventCost db eid = some cost) :
    db.events.any (fun e => e.id == eid) = true := by
  unfold selectEventCost at h
  split at h
  · rename_i e heq
    rw [List.any_eq_true]
    have : e ∈ db.events.filter (fun e => e.id == eid) := by rw [heq]; simp
    rw [List.mem_filter] at this
    exact ⟨e, this.1, this.2⟩
  · exact absurd h (by simp)

/-- A successful single-event registration decomposes into its three
persistence steps: the event-cost read, the student upsert, and the
registration insert of exactly the row built from the request. -/
theorem registerSingle_eq_ok (db : DB) (req : RegisterReq)
    (m f1 f2 : String) (result : SingleResp × DB)
    (hR : registerSingle db req m f1 f2 = result)
    (h : result.1 = SingleResp.ok) :
    ∃ cost sid db1 db2,
      selectEventCost db req.event_id = some cost ∧
      upsertStudentByPhone db req f1 = .ok (sid, db1) ∧
      insertRegs db1 [regRowSingle req m sid f2 cost] = .ok db2 ∧
      result = (.ok, db2) ∧
      (∀ (dbx : DB) (mx g1 g2 : String),
        registerSingle dbx req mx g1 g2 = registerSingleCore dbx req mx g1 g2) := by
  unfold registerSingle at hR
  split at hR
  · subst hR; exact absurd h (by simp)
  rename_i hv1
  split at hR
  · subst hR; exact absurd h (by simp)
  rename_i hv2
  split at hR
  · subst hR; exact absurd h (by simp)
  rename_i hv3
  split at hR
  · subst hR; exact absurd h (by simp)
  rename_i hv4
  split at hR
  · subst hR; exact absurd h (by simp)
  rename_i hv5
  split at hR
  · subst hR; exact absurd h (by simp)
  rename_i hv6
  have hval : ∀ (dbx : DB) (mx g1 g2 : String),
      registerSingle dbx req mx g1 g2 = registerSingleCore dbx req mx g1 g2 := by
    intro dbx mx g1 g2
    unfold registerSingle
    rw [if_neg hv1, if_neg hv2, if_neg hv3, if_neg hv4, if_neg hv5, if_neg hv6]
  unfold registerSingleCore at hR
  split at hR
  · subst hR; exact absurd h (by simp)
  · rename_i cost hsel
    split at hR
    · rename_i r hups
      rw [upsertStudentByPhone_error db req f1 r hups] at hR
      subst hR
      exact absurd h (by simp)
    · rename_i sid db1 hups
      split at hR
      · rename_i e hins
        split at hR
        · subst hR; exact absurd h (by simp)
        · subst hR; exact absurd h (by simp)
      · rename_i db2 hins
        subst hR
        exact ⟨cost, sid, db1, db2, hsel, hups, hins, rfl, hval⟩

/-- When every validation guard holds, the single-event handler runs its
persistence phase. -/
theorem registerSingle_valid (db : DB) (req : RegisterReq) (m f1 f2 : String)
    (hv : singleGuardsOk req) :
    registerSingle db req m f1 f2 = registerSingleCore db req m f1 f2 := by
  obtain ⟨h1, h2, h3, h4, h5, h6, h7, h8, h9, h10⟩ := hv
  have b1 : (req.name == "" || req.phone == "" || req.email == "" ||
      req.event_id == "" || req.payment_method == "") = false := by
    simp [h1, h2, h3, h4, h5]
  have b5 : (req.payment_method == "cash" || req.payment_method == "upi") = true := by
    rcases h9 with h | h <;> simp [h]
  have b6 : (req.payment_method == "upi" && req.transaction_id == "") = false := by
    by_cases hu : req.payment_method = "upi"
    · simp [hu, h10 hu]
    · simp [hu]
  unfold registerSingle
  rw [b1, h6, h7, h8, b5, b6]
  rfl

/-- When every validation guard holds, the multi-event handler runs its
persistence phase. -/
theorem registerBatch_valid (db : DB) (req : BatchReq) (m f : String)
    (nid : String → String) (interf : List Registration)
    (hv : batchGuardsOk req) :
    registerBatch db req m f nid interf =
      registerBatchCore db req m f nid interf := by
  obtain ⟨h1, h2, h3, h4, h5, h6, h7, h8, h9, h10, h11⟩ := hv
  have hne : req.event_ids.isEmpty = false := by
    cases he : req.event_ids with
    | nil => exact absurd he h5
    | cons a l => rfl
  have b1 : (req.student_id == "" || req.name == "" || req.phone == "" ||
      req.email == "" || req.event_ids.isEmpty || req.payment_method == "") = false := by
    simp [h1, h2, h3, h4, hne, h6]
  have b4 : (req.event_ids.any (fun id => !isUUID id)) = false := by
    rw [List.any_eq_false]
    intro x hx
    simp [h9 x hx]
  have b5 : (req.payment_method == "cash" || req.payment_method == "upi") = true := by
    rcases h10 with h | h <;> simp [h]
  have b6 : (req.payment_method == "upi" && req.transaction_id == "") = false := by
    by_cases hu : req.payment_method = "upi"
    · simp [hu, h11 hu]
    · simp [hu]
  unfold registerBatch
  rw [b1, h7, h8, b4, b5, b6]
  rfl

theorem upsertStudentByCode_error (db : DB) (req : BatchReq) (f : String)
    (r : BatchResp × DB) (h : upsertStudentByCode db req f = .error r) :
    r = (.err 400 "Phone or email already used by another student.", db) := by
  unfold upsertStudentByCode at h
  split at h
  · exact absurd h (by simp)
  · split at h
    · injection h with h
      exact h.symm
    · exact absurd h (by simp)

theorem upsertStudentByCode_ok (db : DB) (req : BatchReq) (f : String)
    (sid : String) (db1 : DB)
    (h : upsertStudentByCode db req f = .ok (sid, db1)) :
    db1.registrations = db.registrations ∧ db1.events = db.events := by
  unfold upsertStudentByCode at h
  split at h
  · injection h with h
    rw [Prod.mk.injEq] at h
    obtain ⟨-, h2⟩ := h
    subst h2
    exact ⟨rfl, rfl⟩
  · split at h
    · exact absurd h (by simp)
    · injection h with h
      rw [Prod.mk.injEq] at h
      obtain ⟨-, h2⟩ := h
      subst h2
      exact ⟨rfl, rfl⟩

/-! ### Concrete fixtures used by the witness theorems -/

def evHack : Event := ⟨"11111111-1111-1111-1111-111111111111", "Hackathon", 50⟩

def evQuiz : Event := ⟨"22222222-2222-2222-2222-222222222222", "Quiz", 30⟩

def memberA : String := "33333333-3333-3333-3333-333333333333"

def dbEx : DB := { events := [evHack, evQuiz], students := [], registrations := [] }

def reqEx : RegisterReq :=
  { name := "Alice", phone := "9876543210", email := "a@b.com",
    event_id := "11111111-1111-1111-1111-111111111111",
    payment_method := "cash", transaction_id := "TXN42", amount := some 999 }

/-! ### Claim C7 -/

/-- C7: counterexample — `sanitize` is not idempotent.  At the input
`"a <"`, the first application strips the `<` after trimming, exposing a
trailing space (`"a "`); the second application trims that space away, so
`sanitize (sanitize x)` differs from `sanitize x`. -/
theorem c7_sanitize_idempotent_counterexample :
    ¬ (sanitize (sanitize "a <") = sanitize "a <") := by decide

/-- C7 (amended): `sanitize` never increases the length of its input.  (The
idempotency half of the claim is refuted by the counterexample above.) -/
theorem c7_sanitize_length_never_increases (x : String) :
    (sanitize x).length ≤ x.length :=
  sanitize_length_le x

/-! ### Claim C9 -/

/-- C9: `isPhone v` is true exactly when `v` is a string of exactly 10
decimal digits, and `isEmail v` is true exactly when `v` contains `'@'` and
has length at most 254; both are total `Bool`-valued functions on strings. -/
theorem c9_isPhone_isEmail_spec (v : String) :
    (isPhone v = true ↔ v.length = 10 ∧ ∀ c ∈ v.data, c.isDigit = true) ∧
    (isEmail v = true ↔ '@' ∈ v.data ∧ v.length ≤ 254) := by
  constructor
  · unfold isPhone
    rw [beq_iff_eq]
    exact matchRun_eq_some_nil Char.isDigit 10 v.data
  · simp only [isEmail, Bool.and_eq_true, decide_eq_true_eq, List.any_eq_true,
      beq_iff_eq, exists_eq_right]

/-! ### Claim C8 -/

/-- C8: a session token created at time `t0` resolves to its identity at
every time in the half-open 12-hour window from creation, resolves to
nothing from `t0 + 12h` on (the deletion scheduled at login has fired), and
resolves to nothing at any time once logout has revoked it — so any request
presenting it is rejected as unauthenticated. -/
theorem c8_session_ttl_and_logout (s : SessionStore) (tok : String)
    (ident : Identity) (t0 t : Nat) :
    (t0 ≤ t → t < t0 + sessionTTLMillis →
      requireAuthAt (loginCreate s tok ident t0) tok t = some ident) ∧
    (t0 + sessionTTLMillis ≤ t →
      requireAuthAt (loginCreate s tok ident t0) tok t = none) ∧
    requireAuthAt (logout (loginCreate s tok ident t0) tok) tok t = none := by
  refine ⟨?_, ?_, ?_⟩
  · intro _ h2
    unfold requireAuthAt fireDueTimers resolveSession loginCreate
    rw [List.filter_cons_of_pos (by simpa using h2)]
    rw [List.find?_cons_of_pos _ (by simp)]
    rfl
  · intro h2
    unfold requireAuthAt fireDueTimers resolveSession loginCreate
    rw [List.filter_cons_of_neg (by simpa using Nat.not_lt.mpr h2)]
    rw [List.find?_eq_none.mpr, Option.map_none']
    intro e he
    rw [List.mem_filter] at he
    have := (List.mem_filter.mp he.1).2
    intro hbeq
    rw [beq_iff_eq] at hbeq
    simp [hbeq] at this
  · unfold requireAuthAt fireDueTimers resolveSession logout loginCreate
    rw [List.find?_eq_none.mpr, Option.map_none']
    intro e he
    rw [List.mem_filter] at he
    have := (List.mem_filter.mp he.1).2
    intro hbeq
    rw [beq_iff_eq] at hbeq
    simp [hbeq] at this

/-- C8 witness: at concrete times — resolvable one millisecond before the
12-hour mark, gone exactly at it, and gone right after logout. -/
theorem c8_witness :
    requireAuthAt (loginCreate [] "tok" ⟨"i", "n", "e", "member"⟩ 1000)
        "tok" 43200999 = some ⟨"i", "n", "e", "member"⟩ ∧
    requireAuthAt (loginCreate [] "tok" ⟨"i", "n", "e", "member"⟩ 1000)
        "tok" 43201000 = none ∧
    requireAuthAt (logout (loginCreate [] "tok" ⟨"i", "n", "e", "member"⟩ 1000)
        "tok") "tok" 1001 = none :=
  ⟨(c8_session_ttl_and_logout [] "tok" ⟨"i", "n", "e", "member"⟩ 1000
      43200999).1 (by decide) (by decide),
   (c8_session_ttl_and_logout [] "tok" ⟨"i", "n", "e", "member"⟩ 1000
      43201000).2.1 (by decide),
   (c8_session_ttl_and_logout [] "tok" ⟨"i", "n", "e", "member"⟩ 1000
      1001).2.2⟩

/-- `selectEventCost` reads only the events table. -/
theorem selectEventCost_congr (db db' : DB) (eid : String)
    (h : db'.events = db.events) :
    selectEventCost db' eid = selectEventCost db eid := by
  unfold selectEventCost
  rw [h]

/-! ### Claim C1 -/

/-- C1: for every well-formed single-event registration that succeeds, the
stored row's `amount_paid` is exactly the cost read from the Events table
for the requested event — and the outcome is independent of any
client-supplied `amount` field in the payload: two requests differing only
in `amount` produce identical responses and identical database states. -/
theorem c1_amount_paid_from_events_table (db : DB) (req : RegisterReq)
    (m f1 f2 : String)
    (h : (registerSingle db req m f1 f2).1 = SingleResp.ok) :
    (∀ a b : Option Int,
      registerSingle db { req with amount := a } m f1 f2 =
        registerSingle db { req with amount := b } m f1 f2) ∧
    ∃ cost sid,
      selectEventCost db req.event_id = some cost ∧
      (registerSingle db req m f1 f2).2.registrations =
        db.registrations ++ [regRowSingle req m sid f2 cost] ∧
      (regRowSingle req m sid f2 cost).amountPaid = some cost := by
  constructor
  · intro a b
    cases req
    rfl
  · obtain ⟨cost, sid, db1, db2, hsel, hups, hins, hres, -⟩ :=
      registerSingle_eq_ok db req m f1 f2 _ rfl h
    rw [insertRegs_eq_ok] at hins
    obtain ⟨-, -, -, rfl⟩ := hins
    refine ⟨cost, sid, hsel, ?_, rfl⟩
    rw [hres]
    have hregs := (upsertStudentByPhone_ok db req f1 sid db1 hups).1
    simp [hregs]

/-- C1 witness: a concrete successful cash registration against a two-event
database; the stored row carries the event's stored cost (50), not the
client-supplied `amount` (999). -/
theorem c1_witness :
    (registerSingle dbEx reqEx memberA "s1" "r1").1 = SingleResp.ok ∧
    ((∀ a b : Option Int,
      registerSingle dbEx { reqEx with amount := a } memberA "s1" "r1" =
        registerSingle dbEx { reqEx with amount := b } memberA "s1" "r1") ∧
    ∃ cost sid,
      selectEventCost dbEx reqEx.event_id = some cost ∧
      (registerSingle dbEx reqEx memberA "s1" "r1").2.registrations =
        dbEx.registrations ++ [regRowSingle reqEx memberA sid "r1" cost] ∧
      (regRowSingle reqEx memberA sid "r1" cost).amountPaid = some cost) :=
  ⟨by decide,
   c1_amount_paid_from_events_table dbEx reqEx memberA "s1" "r1" (by decide)⟩

/-- A successful sales edit decomposes into its persistence steps: the
registration exists, the acting identity passes the ownership check, the
event cost is re-read, and the student contact fields and the registration
row are overwritten. -/
theorem putSale_eq_ok (db : DB) (actor : Actor) (saleId : String)
    (req : PutSaleReq) (result : SingleResp × DB)
    (hR : putSale db actor saleId req = result)
    (h : result.1 = SingleResp.ok) :
    ∃ cost,
      selectEventCost db req.event_id = some cost ∧
      result = (.ok,
        { db with
          students := updateStudentContact db.students req
          registrations := updateSaleRows db.registrations saleId req cost }) := by
  unfold putSale at hR
  split at hR
  · subst hR; exact absurd h (by simp)
  split at hR
  · subst hR; exact absurd h (by simp)
  split at hR
  · subst hR; exact absurd h (by simp)
  split at hR
  · subst hR; exact absurd h (by simp)
  split at hR
  · subst hR; exact absurd h (by simp)
  split at hR
  · subst hR; exact absurd h (by simp)
  split at hR
  · subst hR; exact absurd h (by simp)
  · rename_i check hfind
    split at hR
    · subst hR; exact absurd h (by simp)
    · split at hR
      · subst hR; exact absurd h (by simp)
      · rename_i cost hsel
        simp only [] at hR
        split at hR
        · subst hR; exact absurd h (by simp)
        · subst hR
          exact ⟨cost, hsel, rfl⟩

/-- A successful multi-event registration appends to the pre-insert state
(including any concurrently committed rows `interf`) exactly the rows built
by `regRowBatch` over the surviving event ids. -/
theorem registerBatch_eq_ok (db : DB) (req : BatchReq) (m f : String)
    (nid : String → String) (interf : List Registration)
    (result : BatchResp × DB) (cnt skp : Nat)
    (hR : registerBatch db req m f nid interf = result)
    (h : result.1 = BatchResp.ok cnt skp) :
    ∃ sid db1,
      upsertStudentByCode db req f = .ok (sid, db1) ∧
      result.2.registrations = (db1.registrations ++ interf) ++
        ((newEventIdsOf db1 req sid).map
          (regRowBatch req m sid nid (eventsDataOf db req))) := by
  unfold registerBatch at hR
  split at hR
  · subst hR; exact absurd h (by simp)
  split at hR
  · subst hR; exact absurd h (by simp)
  split at hR
  · subst hR; exact absurd h (by simp)
  split at hR
  · subst hR; exact absurd h (by simp)
  split at hR
  · subst hR; exact absurd h (by simp)
  split at hR
  · subst hR; exact absurd h (by simp)
  unfold registerBatchCore at hR
  split at hR
  · subst hR; exact absurd h (by simp)
  · split at hR
    · rename_i r hupsE
      rw [upsertStudentByCode_error db req f r hupsE] at hR
      subst hR
      exact absurd h (by simp)
    · rename_i sid db1 hups
      split at hR
      · subst hR; exact absurd h (by simp)
      · simp only [] at hR
        split at hR
        · subst hR; exact absurd h (by simp)
        · rename_i db3 hins
          subst hR
          rw [insertRegs_eq_ok] at hins
          obtain ⟨-, -, -, rfl⟩ := hins
          exact ⟨sid, db1, hups, rfl⟩

/-! ### Claim C10 -/

/-- C10: on every successful registration create — single-event or
multi-event — every stored row's `transaction_id` is `NULL` whenever the
payment method is cash, even when the request carries a non-empty
`transaction_id`, and a stored non-null `transaction_id` occurs only with
payment method upi; the same holds for the row overwritten by a successful
sales edit. -/
theorem c10_transaction_id_only_for_upi (db db2 db4 : DB) (req : RegisterReq)
    (preq : PutSaleReq) (breq : BatchReq) (actor : Actor)
    (saleId m f1 f2 m3 f3 : String) (nid : String → String)
    (interf : List Registration) (cnt skp : Nat)
    (hc : (registerSingle db req m f1 f2).1 = SingleResp.ok)
    (he : (putSale db2 actor saleId preq).1 = SingleResp.ok)
    (hb : (registerBatch db4 breq m3 f3 nid interf).1 = BatchResp.ok cnt skp) :
    (∃ cost sid,
      (registerSingle db req m f1 f2).2.registrations =
        db.registrations ++ [regRowSingle req m sid f2 cost] ∧
      (req.payment_method = "cash" →
        (regRowSingle req m sid f2 cost).transactionId = none) ∧
      ((regRowSingle req m sid f2 cost).transactionId ≠ none →
        req.payment_method = "upi")) ∧
    (∀ r ∈ (putSale db2 actor saleId preq).2.registrations, r.id = saleId →
      (preq.payment_method = "cash" → r.transactionId = none) ∧
      (r.transactionId ≠ none → preq.payment_method = "upi")) ∧
    (∃ sid db1,
      (registerBatch db4 breq m3 f3 nid interf).2.registrations =
        (db1.registrations ++ interf) ++
          ((newEventIdsOf db1 breq sid).map
            (regRowBatch breq m3 sid nid (eventsDataOf db4 breq))) ∧
      ∀ r ∈ (newEventIdsOf db1 breq sid).map
          (regRowBatch breq m3 sid nid (eventsDataOf db4 breq)),
        (breq.payment_method = "cash" → r.transactionId = none) ∧
        (r.transactionId ≠ none → breq.payment_method = "upi")) := by
  refine ⟨?_, ?_, ?_⟩
  · obtain ⟨cost, sid, db1, dbI, hsel, hups, hins, hres, -⟩ :=
      registerSingle_eq_ok db req m f1 f2 _ rfl hc
    rw [insertRegs_eq_ok] at hins
    obtain ⟨-, -, -, rfl⟩ := hins
    refine ⟨cost, sid, ?_, ?_, ?_⟩
    · rw [hres]
      have hregs := (upsertStudentByPhone_ok db req f1 sid db1 hups).1
      simp [hregs]
    · intro hcash
      simp [regRowSingle, hcash]
    · intro htxn
      by_cases hu : req.payment_method = "upi"
      · exact hu
      · exact absurd (by simp [regRowSingle, hu]) htxn
  · obtain ⟨cost, hsel, hres⟩ := putSale_eq_ok db2 actor saleId preq _ rfl he
    rw [hres]
    intro r hr hid
    simp only [updateSaleRows, List.mem_map] at hr
    obtain ⟨r0, -, rfl⟩ := hr
    by_cases h0 : (r0.id == saleId) = true
    · rw [if_pos h0]
      constructor
      · intro hcash
        simp [applySaleUpdate, hcash]
      · intro htxn
        by_cases hu : preq.payment_method = "upi"
        · exact hu
        · exact absurd (by simp [applySaleUpdate, hu]) htxn
    · rw [if_neg h0] at hid ⊢
      rw [beq_iff_eq] at h0
      exact absurd hid h0
  · obtain ⟨sid, db1, hups, hregs⟩ :=
      registerBatch_eq_ok db4 breq m3 f3 nid interf _ cnt skp rfl hb
    refine ⟨sid, db1, hregs, ?_⟩
    intro r hr
    rw [List.mem_map] at hr
    obtain ⟨eid, -, rfl⟩ := hr
    constructor
    · intro hcash
      simp [regRowBatch, hcash]
    · intro htxn
      by_cases hu : breq.payment_method = "upi"
      · exact hu
      · exact absurd (by simp [regRowBatch, hu]) htxn

def saleIdEx : String := "66666666-6666-6666-6666-666666666666"

def studentIdEx : String := "77777777-7777-7777-7777-777777777777"

def stuEx : Student :=
  ⟨studentIdEx, "STU9", "Bob", "9123456780", "bob@x.com"⟩

def regEx : Registration :=
  { id := saleIdEx, studentId := studentIdEx,
    eventId := "22222222-2222-2222-2222-222222222222", memberId := memberA,
    paymentMethod := "upi", transactionId := some "OLDTXN",
    amountPaid := some 30 }

def dbEx2 : DB :=
  { events := [evHack, evQuiz], students := [stuEx], registrations := [regEx] }

def preqEx : PutSaleReq :=
  { student_id := studentIdEx, name := "Bob", phone := "9123456780",
    email := "bob@x.com", event_id := "11111111-1111-1111-1111-111111111111",
    payment_method := "cash", transaction_id := "SHOULDNOTSTORE" }

def actorEx : Actor := ⟨memberA, "member"⟩

/-- A cash batch create whose request carries a non-empty
`transaction_id`. -/
def breqCash : BatchReq :=
  { student_id := "STU1", name := "Alice", phone := "9876543210",
    email := "a@b.com",
    event_ids := ["11111111-1111-1111-1111-111111111111",
                  "22222222-2222-2222-2222-222222222222"],
    payment_method := "cash", transaction_id := "BATCHTXN", amount := none }

/-- C10 witness: a concrete cash create whose request carries
`transaction_id = "TXN42"`, a concrete cash edit whose request carries
`transaction_id = "SHOULDNOTSTORE"`, and a concrete cash two-event batch
create whose request carries `transaction_id = "BATCHTXN"`; all succeed and
none stores a transaction id. -/
theorem c10_witness :
    (registerSingle dbEx reqEx memberA "s1" "r1").1 = SingleResp.ok ∧
    (putSale dbEx2 actorEx saleIdEx preqEx).1 = SingleResp.ok ∧
    (registerBatch dbEx breqCash memberA "s3" (fun e => e) []).1 =
      BatchResp.ok 2 0 ∧
    ((∃ cost sid,
      (registerSingle dbEx reqEx memberA "s1" "r1").2.registrations =
        dbEx.registrations ++ [regRowSingle reqEx memberA sid "r1" cost] ∧
      (reqEx.payment_method = "cash" →
        (regRowSingle reqEx memberA sid "r1" cost).transactionId = none) ∧
      ((regRowSingle reqEx memberA sid "r1" cost).transactionId ≠ none →
        reqEx.payment_method = "upi")) ∧
    (∀ r ∈ (putSale dbEx2 actorEx saleIdEx preqEx).2.registrations,
      r.id = saleIdEx →
      (preqEx.payment_method = "cash" → r.transactionId = none) ∧
      (r.transactionId ≠ none → preqEx.payment_method = "upi")) ∧
    (∃ sid db1,
      (registerBatch dbEx breqCash memberA "s3" (fun e => e) []).2.registrations =
        (db1.registrations ++ []) ++
          ((newEventIdsOf db1 breqCash sid).map
            (regRowBatch breqCash memberA sid (fun e => e)
              (eventsDataOf dbEx breqCash))) ∧
      ∀ r ∈ (newEventIdsOf db1 breqCash sid).map
          (regRowBatch breqCash memberA sid (fun e => e)
            (eventsDataOf dbEx breqCash)),
        (breqCash.payment_method = "cash" → r.transactionId = none) ∧
        (r.transactionId ≠ none → breqCash.payment_method = "upi"))) :=
  ⟨by decide, by decide, by decide,
   c10_transaction_id_only_for_upi dbEx dbEx2 dbEx reqEx preqEx breqCash
     actorEx saleIdEx memberA "s1" "r1" memberA "s3" (fun e => e) [] 2 0
     (by decide) (by decide) (by decide)⟩

/-- The validation conjunction of the sales edit routes: exactly the
conditions under which none of the early 400 returns fire (in either
variant's ordering). -/
def putGuardsOk (saleId : String) (req : PutSaleReq) : Prop :=
  isUUID saleId = true ∧ isUUID req.student_id = true ∧
  isUUID req.event_id = true ∧
  req.name ≠ "" ∧ req.phone ≠ "" ∧ req.email ≠ "" ∧ req.payment_method ≠ "" ∧
  isPhone req.phone = true ∧ isEmail req.email = true ∧
  (req.payment_method = "cash" ∨ req.payment_method = "upi") ∧
  (req.payment_method = "upi" → req.transaction_id ≠ "")

instance (saleId : String) (req : PutSaleReq) :
    Decidable (putGuardsOk saleId req) := by
  unfold putGuardsOk
  infer_instance

/-! ### Claim C6 -/

/-- C6: for a well-formed edit or delete of an existing registration, an
actor that is neither admin nor the owning member receives 403 Forbidden
with the whole database unchanged, and the mutation proceeds past the
ownership guard exactly when the actor is admin or owner (for delete, the
row is then removed).  In the first variant the session carries no role, and
the same owner-only dichotomy holds. -/
theorem c6_mutation_requires_owner_or_admin (db : DB) (actor : Actor)
    (actorId saleId : String) (req : PutSaleReq) (reg : Registration)
    (hg : putGuardsOk saleId req)
    (hfind : db.registrations.find? (fun r => r.id == saleId) = some reg) :
    (¬(actor.role = "admin" ∨ actor.id = reg.memberId) →
      putSale db actor saleId req = (.err 403 "Not authorized.", db) ∧
      deleteSale db actor saleId = (.err 403 "Not authorized.", db)) ∧
    ((actor.role = "admin" ∨ actor.id = reg.memberId) →
      (putSale db actor saleId req).1 ≠ .err 403 "Not authorized." ∧
      deleteSale db actor saleId = (.ok,
        { db with registrations :=
            db.registrations.filter (fun r => !(r.id == saleId)) })) ∧
    (actorId ≠ reg.memberId →
      putSaleV1 db actorId saleId req = (.err 403 "Not authorized.", db)) ∧
    (actorId = reg.memberId →
      (putSaleV1 db actorId saleId req).1 ≠ .err 403 "Not authorized.") := by
  obtain ⟨g1, g2, g3, g4, g5, g6, g7, g8, g9, g10, g11⟩ := hg
  have g3ne : req.event_id ≠ "" := by
    intro he
    rw [he] at g3
    exact absurd g3 (by decide)
  have b1 : (!(isUUID saleId) || !(isUUID req.student_id) ||
      !(isUUID req.event_id)) = false := by
    simp [g1, g2, g3]
  have b2 : (req.name == "" || req.phone == "" || req.email == "" ||
      req.payment_method == "") = false := by
    simp [g4, g5, g6, g7]
  have b2v : (req.name == "" || req.phone == "" || req.email == "" ||
      req.event_id == "" || req.payment_method == "") = false := by
    simp [g4, g5, g6, g3ne, g7]
  have b5 : (!(req.payment_method == "cash" || req.payment_method == "upi")) =
      false := by
    rcases g10 with h | h <;> simp [h]
  have b6 : (req.payment_method == "upi" && req.transaction_id == "") =
      false := by
    by_cases hu : req.payment_method = "upi"
    · simp [hu, g11 hu]
    · simp [hu]
  refine ⟨?_, ?_, ?_, ?_⟩
  · intro hperm
    rw [not_or] at hperm
    have bo : (!(actor.role == "admin") && !(reg.memberId == actor.id)) =
        true := by
      have h2 : reg.memberId ≠ actor.id := fun h => hperm.2 h.symm
      simp [hperm.1, h2]
    constructor
    · unfold putSale
      simp [b1, b2, g8, g9, b5, b6, hfind, bo]
    · unfold deleteSale
      simp [g1, hfind, bo]
  · intro hperm
    have bo : (!(actor.role == "admin") && !(reg.memberId == actor.id)) =
        false := by
      rcases hperm with h | h
      · simp [h]
      · simp [h.symm]
    constructor
    · unfold putSale
      simp only [b1, b2, g8, g9, b5, b6, hfind, bo, Bool.not_false,
        Bool.false_eq_true, if_false, if_true, Bool.not_true]
      split
      · simp
      · split
        · simp
        · simp
    · unfold deleteSale
      simp [g1, hfind, bo]
  · intro hown
    have bo : (!(reg.memberId == actorId)) = true := by
      have h2 : reg.memberId ≠ actorId := fun h => hown h.symm
      simp [h2]
    unfold putSaleV1
    simp [b2v, g1, g2, g8, g9, g3, b5, b6, hfind, bo]
  · intro hown
    have bo : (!(reg.memberId == actorId)) = false := by
      simp [hown.symm]
    unfold putSaleV1
    simp only [b2v, g1, g2, g8, g9, g3, b5, b6, hfind, bo, Bool.not_false,
      Bool.not_true, Bool.false_eq_true, if_false, if_true]
    split
    · simp
    · split
      · simp
      · simp

/-- C6 witness: the concrete registration `regEx` owned by `memberA`, with a
well-formed edit request; the guard dichotomy holds at this instance. -/
theorem c6_witness :
    putGuardsOk saleIdEx preqEx ∧
    ((¬(actorEx.role = "admin" ∨ actorEx.id = regEx.memberId) →
      putSale dbEx2 actorEx saleIdEx preqEx = (.err 403 "Not authorized.", dbEx2) ∧
      deleteSale dbEx2 actorEx saleIdEx = (.err 403 "Not authorized.", dbEx2)) ∧
    ((actorEx.role = "admin" ∨ actorEx.id = regEx.memberId) →
      (putSale dbEx2 actorEx saleIdEx preqEx).1 ≠ .err 403 "Not authorized." ∧
      deleteSale dbEx2 actorEx saleIdEx = (.ok,
        { dbEx2 with registrations :=
            dbEx2.registrations.filter (fun r => !(r.id == saleIdEx)) })) ∧
    (memberA ≠ regEx.memberId →
      putSaleV1 dbEx2 memberA saleIdEx preqEx = (.err 403 "Not authorized.", dbEx2)) ∧
    (memberA = regEx.memberId →
      (putSaleV1 dbEx2 memberA saleIdEx preqEx).1 ≠ .err 403 "Not authorized.")) :=
  ⟨by decide,
   c6_mutation_requires_owner_or_admin dbEx2 actorEx memberA saleIdEx preqEx
     regEx (by decide) (by decide)⟩

theorem updStudentSingle_phone (req : RegisterReq) (k : String) (s : Student) :
    (updStudentSingle req k s).phone = s.phone := by
  unfold updStudentSingle
  split <;> rfl

theorem updStudentSingle_id (req : RegisterReq) (k : String) (s : Student) :
    (updStudentSingle req k s).id = s.id := by
  unfold updStudentSingle
  split <;> rfl

/-- Re-running the phone-keyed upsert for the same request against any state
with the students the first upsert produced resolves the same student id
(the upsert is stable: the first run left a student carrying the request's
phone number). -/
theorem upsertStudentByPhone_again (db : DB) (req : RegisterReq) (f : String)
    (sid : String) (db1 : DB)
    (h : upsertStudentByPhone db req f = .ok (sid, db1))
    (db' : DB) (hst : db'.students = db1.students) (f' : String) :
    ∃ db2, upsertStudentByPhone db' req f' = .ok (sid, db2) ∧
      db2.registrations = db'.registrations ∧ db2.events = db'.events := by
  unfold upsertStudentByPhone at h
  split at h
  · rename_i stu hfound
    injection h with h
    rw [Prod.mk.injEq] at h
    obtain ⟨hsid, hdb1⟩ := h
    subst hsid
    subst hdb1
    have hfind2 : (db.students.map (updStudentSingle req stu.id)).find?
        (fun s => s.phone == req.phone)
        = some (updStudentSingle req stu.id stu) := by
      rw [List.find?_map]
      have hc : ((fun s : Student => s.phone == req.phone) ∘
          updStudentSingle req stu.id) = (fun s => s.phone == req.phone) := by
        funext s
        simp [Function.comp, updStudentSingle_phone]
      rw [hc, hfound]
      rfl
    refine ⟨DB.mk db'.events (db'.students.map (updStudentSingle req stu.id))
      db'.registrations, ?_, rfl, rfl⟩
    unfold upsertStudentByPhone
    rw [hst]
    simp only [hfind2, updStudentSingle_id]
  · rename_i hfound
    split at h
    · exact absurd h (by simp)
    · rename_i hmail
      injection h with h
      rw [Prod.mk.injEq] at h
      obtain ⟨hsid, hdb1⟩ := h
      subst hsid
      subst hdb1
      have hfind2 : (db.students ++ [newStudentSingle req f]).find?
          (fun s => s.phone == req.phone)
          = some (newStudentSingle req f) := by
        rw [List.find?_append, hfound]
        simp [newStudentSingle]
      refine ⟨DB.mk db'.events (db'.students.map (updStudentSingle req f))
        db'.registrations, ?_, rfl, rfl⟩
      unfold upsertStudentByPhone
      rw [hst]
      simp only [hfind2]
      rfl

/-- A sequential multi-event registration preserves the at-most-one
registration-per-(student, event) invariant, whatever its outcome. -/
theorem registerBatch_pairsNodup (db : DB) (breq : BatchReq) (m f : String)
    (nid : String → String) (hdb : pairsNodup db.registrations = true) :
    pairsNodup (registerBatch db breq m f nid []).2.registrations = true := by
  unfold registerBatch
  split
  · exact hdb
  split
  · exact hdb
  split
  · exact hdb
  split
  · exact hdb
  split
  · exact hdb
  split
  · exact hdb
  unfold registerBatchCore
  dsimp only
  split
  · exact hdb
  · split
    · rename_i r hupsE
      rw [upsertStudentByCode_error db breq f r hupsE]
      exact hdb
    · rename_i sid db1 hups
      have hregs1 : db1.registrations = db.registrations :=
        (upsertStudentByCode_ok db breq f sid db1 hups).1
      split
      · simpa [hregs1] using hdb
      · split
        · rename_i e hins
          simpa [hregs1] using hdb
        · rename_i db3 hins
          refine insertRegs_pairsNodup _ _ _ hins ?_
          simpa [hregs1] using hdb

/-! ### Claim C4 -/

/-- C4: after a successful single-event registration, repeating the same
request (same student phone, same event, by any member) is rejected with the
409-style duplicate Conflict (HTTP 400, "Student already registered for this
event.") and writes no further registration row; pair-uniqueness of the
registrations table is preserved by both the single-event and the
multi-event handler. -/
theorem c4_no_duplicate_registration (db : DB) (req : RegisterReq)
    (m m2 f1 f2 g1 g2 : String)
    (h : (registerSingle db req m f1 f2).1 = SingleResp.ok) :
    ((registerSingle (registerSingle db req m f1 f2).2 req m2 g1 g2).1 =
      .err 400 "Student already registered for this event.") ∧
    ((registerSingle (registerSingle db req m f1 f2).2 req m2 g1 g2).2.registrations =
      (registerSingle db req m f1 f2).2.registrations) ∧
    (pairsNodup db.registrations = true →
      pairsNodup
        (registerSingle (registerSingle db req m f1 f2).2 req m2 g1 g2).2.registrations
        = true) ∧
    (∀ (breq : BatchReq) (m3 f3 : String) (nid : String → String),
      pairsNodup db.registrations = true →
      pairsNodup (registerBatch db breq m3 f3 nid []).2.registrations = true) := by
  obtain ⟨cost, sid, db1, dbI, hsel, hups, hins, hres, hval⟩ :=
    registerSingle_eq_ok db req m f1 f2 _ rfl h
  have hinsS := hins
  rw [insertRegs_eq_ok] at hinsS
  obtain ⟨-, -, -, hdbI⟩ := hinsS
  have hups1 := upsertStudentByPhone_ok db req f1 sid db1 hups
  -- the database state after the first call
  have hR2 : (registerSingle db req m f1 f2).2 = dbI := by rw [hres]
  have hIstudents : dbI.students = db1.students := by rw [hdbI]
  have hIevents : dbI.events = db.events := by rw [hdbI]; exact hups1.2
  have hIregs : dbI.registrations =
      db.registrations ++ [regRowSingle req m sid f2 cost] := by
    rw [hdbI]
    simp [hups1.1]
  -- the second call runs the persistence phase on dbI
  obtain ⟨db3, hups2, hregs3, hevs3⟩ :=
    upsertStudentByPhone_again db req f1 sid db1 hups dbI hIstudents g1
  have hsel2 : selectEventCost dbI req.event_id = some cost := by
    rw [selectEventCost_congr dbI dbI req.event_id rfl]
    rw [show selectEventCost dbI req.event_id = selectEventCost db req.event_id
      from by unfold selectEventCost; rw [hIevents]]
    exact hsel
  have hfk : ([regRowSingle req m2 sid g2 cost].any (fun r =>
      !(db3.events.any (fun e => e.id == r.eventId)))) = false := by
    simp only [List.any_cons, List.any_nil, Bool.or_false, Bool.not_eq_false']
    rw [hevs3, hIevents]
    simpa [regRowSingle] using selectEventCost_any db req.event_id cost hsel
  have hpair : ([regRowSingle req m2 sid g2 cost].any (fun r =>
      db3.registrations.any (sameKeyPair r))) = true := by
    simp only [List.any_cons, List.any_nil, Bool.or_false]
    rw [hregs3, hIregs, List.any_append]
    have hsk : sameKeyPair (regRowSingle req m2 sid g2 cost)
        (regRowSingle req m sid f2 cost) = true := by
      simp [sameKeyPair, regRowSingle]
    simp [hsk]
  have hins2 : insertRegs db3 [regRowSingle req m2 sid g2 cost] =
      .error ⟨"23505", "duplicate key value violates unique constraint"⟩ := by
    unfold insertRegs
    rw [hfk, hpair]
    rfl
  have hcore : registerSingle dbI req m2 g1 g2 =
      (.err 400 "Student already registered for this event.", db3) := by
    rw [hval dbI m2 g1 g2]
    unfold registerSingleCore
    rw [hsel2]
    simp only [hups2, hins2]
    rfl
  rw [hR2]
  refine ⟨by rw [hcore], by rw [hcore]; exact hregs3, ?_, ?_⟩
  · intro hdb
    rw [hcore]
    have : pairsNodup dbI.registrations = true :=
      insertRegs_pairsNodup db1 [regRowSingle req m sid f2 cost] dbI hins
        (by rw [hups1.1]; exact hdb)
    rw [hregs3]
    exact this
  · intro breq m3 f3 nid hdb
    exact registerBatch_pairsNodup db breq m3 f3 nid hdb

/-- C4 witness: registering Alice for the hackathon twice against the
concrete two-event database — the second attempt conflicts and writes
nothing. -/
theorem c4_witness :
    (registerSingle dbEx reqEx memberA "s1" "r1").1 = SingleResp.ok ∧
    (((registerSingle (registerSingle dbEx reqEx memberA "s1" "r1").2 reqEx
        memberA "s2" "r2").1 =
      .err 400 "Student already registered for this event.") ∧
    ((registerSingle (registerSingle dbEx reqEx memberA "s1" "r1").2 reqEx
        memberA "s2" "r2").2.registrations =
      (registerSingle dbEx reqEx memberA "s1" "r1").2.registrations) ∧
    (pairsNodup dbEx.registrations = true →
      pairsNodup
        (registerSingle (registerSingle dbEx reqEx memberA "s1" "r1").2 reqEx
          memberA "s2" "r2").2.registrations = true) ∧
    (∀ (breq : BatchReq) (m3 f3 : String) (nid : String → String),
      pairsNodup dbEx.registrations = true →
      pairsNodup (registerBatch dbEx breq m3 f3 nid []).2.registrations = true)) :=
  ⟨by decide,
   c4_no_duplicate_registration dbEx reqEx memberA memberA "s1" "r1" "s2" "r2"
     (by decide)⟩

/-- Rows built over distinct event ids (for one student) have pairwise
distinct `(student_id, event_id)` keys. -/
theorem pairsNodup_of_map_eventIds (eids : List String)
    (f : String → Registration) (hf : ∀ e, (f e).eventId = e)
    (hnd : eids.Nodup) :
    pairsNodup (eids.map f) = true := by
  induction eids with
  | nil => rfl
  | cons e es ih =>
    rw [List.map_cons]
    show (!((es.map f).any (sameKeyPair (f e))) && pairsNodup (es.map f)) = true
    rw [Bool.and_eq_true, Bool.not_eq_true']
    refine ⟨?_, ih (List.nodup_cons.mp hnd).2⟩
    rw [List.any_eq_false]
    intro x hx
    rw [List.mem_map] at hx
    obtain ⟨eb, heb, rfl⟩ := hx
    intro hsk
    have h2 := (sameKeyPair_eq_true.mp hsk).2
    rw [hf e, hf eb] at h2
    exact (List.nodup_cons.mp hnd).1 (h2 ▸ heb)

/-- Membership in the already-registered set, over the requested ids, is
exactly "the student has a registration for this event". -/
theorem alreadyRegistered_contains (db1 : DB) (req : BatchReq) (sid : String)
    (eid : String) (he : eid ∈ req.event_ids) :
    ((alreadyRegisteredOf db1 req sid).contains eid = true) ↔
      (db1.registrations.any (fun r =>
        r.studentId == sid && r.eventId == eid) = true) := by
  unfold alreadyRegisteredOf
  simp only [List.any_eq_true, Bool.and_eq_true, beq_iff_eq]
  constructor
  · intro h
    have hm : eid ∈ ((db1.registrations.filter (fun r =>
        r.studentId == sid && req.event_ids.contains r.eventId)).map
          (fun r => r.eventId)).dedup := by
      simpa using h
    rw [List.mem_dedup, List.mem_map] at hm
    obtain ⟨r, hr, heid⟩ := hm
    rw [List.mem_filter, Bool.and_eq_true, beq_iff_eq] at hr
    exact ⟨r, hr.1, hr.2.1, heid⟩
  · rintro ⟨r, hr, hsid, heid⟩
    have hm : eid ∈ ((db1.registrations.filter (fun r =>
        r.studentId == sid && req.event_ids.contains r.eventId)).map
          (fun r => r.eventId)).dedup := by
      rw [List.mem_dedup, List.mem_map]
      refine ⟨r, ?_, heid⟩
      rw [List.mem_filter, Bool.and_eq_true, beq_iff_eq]
      have : req.event_ids.contains r.eventId = true := by
        simp [heid ▸ he]
      exact ⟨hr, hsid, this⟩
    simpa using hm

/-- The pre-check's survivor list filters out exactly the events the student
already has a registration for. -/
theorem newEventIdsOf_eq (db1 : DB) (req : BatchReq) (sid : String) :
    newEventIdsOf db1 req sid = req.event_ids.filter (fun eid =>
      !(db1.registrations.any (fun r =>
        r.studentId == sid && r.eventId == eid))) := by
  unfold newEventIdsOf
  refine List.filter_congr ?_
  intro eid he
  have hb : (alreadyRegisteredOf db1 req sid).contains eid =
      db1.registrations.any (fun r => r.studentId == sid && r.eventId == eid) := by
    rw [Bool.eq_iff_iff]
    exact alreadyRegistered_contains db1 req sid eid he
  rw [hb]

/-- The claim's `K`: how many of the requested event ids the student
(resolved to `sid`) is already registered for. -/
def registeredCount (db : DB) (req : BatchReq) (sid : String) : Nat :=
  (req.event_ids.filter (fun eid => db.registrations.any (fun r =>
    r.studentId == sid && r.eventId == eid))).length

/-! ### Claim C2 -/

/-- C2: a valid batch of `N` distinct event ids, of which the student is
already registered for `K`, succeeds with `created = N − K` and
`skipped = K`, appending exactly `N − K` registration rows; when `K = N`
the call fails with the AllAlreadyRegistered 400 error and appends no
registration row. -/
theorem c2_batch_created_skipped_counts (db : DB) (req : BatchReq)
    (m f sid : String) (nid : String → String) (db1 : DB)
    (hv : batchGuardsOk req)
    (hev : ∀ eid ∈ req.event_ids, db.events.any (fun e => e.id == eid) = true)
    (hnd : req.event_ids.Nodup)
    (hups : upsertStudentByCode db req f = .ok (sid, db1)) :
    (registeredCount db req sid < req.event_ids.length →
      ∃ rows : List Registration,
        rows.length = req.event_ids.length - registeredCount db req sid ∧
        registerBatch db req m f nid [] =
          (.ok rows.length (registeredCount db req sid),
           { db1 with registrations := db1.registrations ++ rows })) ∧
    (registeredCount db req sid = req.event_ids.length →
      registerBatch db req m f nid [] =
        (.err 400 "Student is already registered for all selected events.",
         db1)) := by
  obtain ⟨hregs1, hevs1⟩ := upsertStudentByCode_ok db req f sid db1 hups
  have hNew : newEventIdsOf db1 req sid = req.event_ids.filter (fun eid =>
      !(db.registrations.any (fun r =>
        r.studentId == sid && r.eventId == eid))) := by
    rw [newEventIdsOf_eq db1 req sid, hregs1]
  have hlen : req.event_ids.length =
      registeredCount db req sid + (newEventIdsOf db1 req sid).length := by
    rw [hNew]
    exact List.length_eq_length_filter_add _
  have hene : ¬((eventsDataOf db req).isEmpty = true) := by
    have h5 : req.event_ids ≠ [] := hv.2.2.2.2.1
    cases hc : req.event_ids with
    | nil => exact absurd hc h5
    | cons e0 rest =>
      have he0 : e0 ∈ req.event_ids := by rw [hc]; exact List.mem_cons_self e0 rest
      obtain ⟨ev, hev0, heq0⟩ := List.any_eq_true.mp (hev e0 he0)
      have hevmem : ev ∈ eventsDataOf db req := by
        unfold eventsDataOf
        rw [List.mem_filter]
        refine ⟨hev0, ?_⟩
        rw [beq_iff_eq] at heq0
        simp [heq0, he0]
      intro hemp
      rw [List.isEmpty_iff] at hemp
      rw [hemp] at hevmem
      exact absurd hevmem (List.not_mem_nil ev)
  have hA : ∀ x, x ∈ alreadyRegisteredOf db1 req sid ↔
      x ∈ req.event_ids.filter (fun eid => db.registrations.any (fun r =>
        r.studentId == sid && r.eventId == eid)) := by
    intro x
    constructor
    · intro hx
      have hx2 := hx
      unfold alreadyRegisteredOf at hx2
      rw [List.mem_dedup, List.mem_map] at hx2
      obtain ⟨r, hr, heid⟩ := hx2
      rw [List.mem_filter, Bool.and_eq_true] at hr
      have hxe : x ∈ req.event_ids := by
        have := hr.2.2
        rw [← heid]
        simpa using this
      rw [List.mem_filter]
      refine ⟨hxe, ?_⟩
      rw [← hregs1]
      exact (alreadyRegistered_contains db1 req sid x hxe).mp (by simpa using hx)
    · intro hx
      rw [List.mem_filter] at hx
      have := (alreadyRegistered_contains db1 req sid x hx.1).mpr
        (by rw [hregs1]; exact hx.2)
      simpa using this
  have hSk : (alreadyRegisteredOf db1 req sid).length =
      registeredCount db req sid := by
    refine List.Perm.length_eq ?_
    refine (List.perm_ext_iff_of_nodup ?_ ?_).mpr hA
    · unfold alreadyRegisteredOf
      exact List.nodup_dedup _
    · exact List.Nodup.filter _ hnd
  constructor
  · intro hKN
    have hnewlen : (newEventIdsOf db1 req sid).length =
        req.event_ids.length - registeredCount db req sid := by omega
    have hne2 : ¬((newEventIdsOf db1 req sid).isEmpty = true) := by
      intro hemp
      rw [List.isEmpty_iff] at hemp
      rw [hemp] at hnewlen
      simp at hnewlen
      omega
    -- the rows the handler inserts
    refine ⟨(newEventIdsOf db1 req sid).map
      (regRowBatch req m sid nid (eventsDataOf db req)), ?_, ?_⟩
    · rw [List.length_map, hnewlen]
    · have hc1 : ((newEventIdsOf db1 req sid).map
          (regRowBatch req m sid nid (eventsDataOf db req))).any (fun r =>
          !(({ db1 with registrations := db1.registrations ++
              ([] : List Registration) } : DB).events.any
            (fun e => e.id == r.eventId))) = false := by
        rw [List.any_eq_false]
        intro row hrow
        rw [List.mem_map] at hrow
        obtain ⟨eid, heid, rfl⟩ := hrow
        have heid2 : eid ∈ req.event_ids := by
          have := heid
          unfold newEventIdsOf at this
          exact (List.mem_filter.mp this).1
        have hany : db.events.any (fun e => e.id == eid) = true := hev eid heid2
        simp only [Bool.not_eq_true, Bool.not_eq_false']
        show db1.events.any (fun e =>
          e.id == (regRowBatch req m sid nid (eventsDataOf db req) eid).eventId) = true
        rw [hevs1]
        exact hany
      have hc2 : ((newEventIdsOf db1 req sid).map
          (regRowBatch req m sid nid (eventsDataOf db req))).any (fun r =>
          ({ db1 with registrations := db1.registrations ++
              ([] : List Registration) } : DB).registrations.any
            (sameKeyPair r)) = false := by
        rw [List.any_eq_false]
        intro row hrow
        rw [List.mem_map] at hrow
        obtain ⟨eid, heid, rfl⟩ := hrow
        intro hx
        have hx2 : (db.registrations.any
            (sameKeyPair (regRowBatch req m sid nid (eventsDataOf db req) eid)))
            = true := by
          have : ({ db1 with registrations := db1.registrations ++
              ([] : List Registration) } : DB).registrations =
              db.registrations := by
            show db1.registrations ++ [] = db.registrations
            rw [List.append_nil, hregs1]
          rwa [this] at hx
        rw [List.any_eq_true] at hx2
        obtain ⟨r, hr, hsk⟩ := hx2
        have h1 := (sameKeyPair_eq_true.mp hsk).1
        have h2 := (sameKeyPair_eq_true.mp hsk).2
        have hhas : db.registrations.any (fun r2 =>
            r2.studentId == sid && r2.eventId == eid) = true := by
          rw [List.any_eq_true]
          refine ⟨r, hr, ?_⟩
          rw [Bool.and_eq_true, beq_iff_eq, beq_iff_eq]
          exact ⟨h1.symm, h2.symm⟩
        have hmem := heid
        rw [hNew, List.mem_filter] at hmem
        rw [hhas] at hmem
        simp at hmem
      have hc3 : pairsNodup ((newEventIdsOf db1 req sid).map
          (regRowBatch req m sid nid (eventsDataOf db req))) = true := by
        refine pairsNodup_of_map_eventIds _ _ (fun e => rfl) ?_
        rw [hNew]
        exact List.Nodup.filter _ hnd
      have hins : insertRegs
          ({ db1 with registrations := db1.registrations ++
            ([] : List Registration) } : DB)
          ((newEventIdsOf db1 req sid).map
            (regRowBatch req m sid nid (eventsDataOf db req))) =
          .ok { db1 with registrations := (db1.registrations ++
            ([] : List Registration)) ++
            ((newEventIdsOf db1 req sid).map
              (regRowBatch req m sid nid (eventsDataOf db req))) } := by
        rw [insertRegs_eq_ok]
        exact ⟨hc1, hc2, hc3, rfl⟩
      rw [registerBatch_valid db req m f nid [] hv]
      unfold registerBatchCore
      rw [if_neg hene]
      simp only [hups]
      rw [if_neg hne2]
      simp only [hins]
      rw [hSk]
      rw [List.append_nil]
  · intro hKN
    have hnil : newEventIdsOf db1 req sid = [] := by
      rw [← List.length_eq_zero]
      omega
    rw [registerBatch_valid db req m f nid [] hv]
    unfold registerBatchCore
    rw [if_neg hene]
    simp only [hups]
    rw [if_pos (by rw [hnil]; rfl)]

def breqEx : BatchReq :=
  { student_id := "STU1", name := "Alice", phone := "9876543210",
    email := "a@b.com",
    event_ids := ["11111111-1111-1111-1111-111111111111",
                  "22222222-2222-2222-2222-222222222222"],
    payment_method := "cash", transaction_id := "", amount := none }

/-- The database after the witness batch's student upsert (Alice is new). -/
def db1Ex : DB :=
  { dbEx with students := dbEx.students ++ [newStudentBatch breqEx "s1"] }

/-- C2 witness: a concrete two-event batch for a fresh student (`K = 0`),
with every hypothesis checked by evaluation. -/
theorem c2_witness :
    batchGuardsOk breqEx ∧
    (∀ eid ∈ breqEx.event_ids, dbEx.events.any (fun e => e.id == eid) = true) ∧
    breqEx.event_ids.Nodup ∧
    upsertStudentByCode dbEx breqEx "s1" = .ok ("s1", db1Ex) ∧
    ((registeredCount dbEx breqEx "s1" < breqEx.event_ids.length →
      ∃ rows : List Registration,
        rows.length = breqEx.event_ids.length -
          registeredCount dbEx breqEx "s1" ∧
        registerBatch dbEx breqEx memberA "s1" (fun e => e) [] =
          (.ok rows.length (registeredCount dbEx breqEx "s1"),
           { db1Ex with registrations := db1Ex.registrations ++ rows })) ∧
    (registeredCount dbEx breqEx "s1" = breqEx.event_ids.length →
      registerBatch dbEx breqEx memberA "s1" (fun e => e) [] =
        (.err 400 "Student is already registered for all selected events.",
         db1Ex))) :=
  ⟨by decide, by decide, by decide, by rfl,
   c2_batch_created_skipped_counts dbEx breqEx memberA "s1" "s1" (fun e => e)
     db1Ex (by decide) (by decide) (by decide) (by rfl)⟩

/-! ### Claim C5 -/

/-- C5 (amended): when the persistence layer signals an error — in
particular the `23505` uniqueness violation raised by a concurrent
registration committed between the duplicate pre-check and the batch insert
(`interf`) — the multi-event handler fails for the whole batch with a
generic 500 persistence failure carrying the backend message, and no row of
the batch is committed: the resulting state is exactly the pre-insert state
(student upsert plus the concurrent rows).  It does not classify the
failure as a Conflict. -/
theorem c5_race_batch_insert_500 (db : DB) (req : BatchReq) (m f sid : String)
    (nid : String → String) (interf : List Registration) (db1 : DB) (e : DbErr)
    (hv : batchGuardsOk req)
    (hene : (eventsDataOf db req).isEmpty = false)
    (hups : upsertStudentByCode db req f = .ok (sid, db1))
    (hne : (newEventIdsOf db1 req sid).isEmpty = false)
    (_hcode : e.code = "23505")
    (hins : insertRegs { db1 with registrations := db1.registrations ++ interf }
      ((newEventIdsOf db1 req sid).map
        (regRowBatch req m sid nid (eventsDataOf db req))) = .error e) :
    registerBatch db req m f nid interf =
      (.err 500 ("Failed to create registration: " ++ e.message),
       { db1 with registrations := db1.registrations ++ interf }) := by
  rw [registerBatch_valid db req m f nid interf hv]
  unfold registerBatchCore
  rw [if_neg (by simp [hene])]
  simp only [hups]
  rw [if_neg (by simp [hne])]
  simp only [hins]

/-- The row a concurrent request commits between the pre-check and the
insert of the witness run: the same (student, event) pair as one of the
batch rows. -/
def raceRow : Registration :=
  { id := "zz", studentId := "s2",
    eventId := "22222222-2222-2222-2222-222222222222", memberId := memberA,
    paymentMethod := "cash", transactionId := none, amountPaid := some 30 }

/-- C5 counterexample: at a concrete race — a concurrent request registered
the same pair between the pre-check and the insert — the batch handler
responds with HTTP 500 (the generic persistence-failure class of the error
taxonomy), not with any 400-classified Conflict such as the one the
single-event variant uses for the same uniqueness violation. -/
theorem c5_conflict_counterexample :
    (registerBatch dbEx breqEx memberA "s2" (fun e => e) [raceRow]).1 =
      .err 500 ("Failed to create registration: " ++
        "duplicate key value violates unique constraint") ∧
    ∀ msg : String,
      (registerBatch dbEx breqEx memberA "s2" (fun e => e) [raceRow]).1 ≠
        .err 400 msg := by
  have h1 : (registerBatch dbEx breqEx memberA "s2" (fun e => e) [raceRow]).1 =
      .err 500 ("Failed to create registration: " ++
        "duplicate key value violates unique constraint") := by rfl
  refine ⟨h1, ?_⟩
  intro msg h
  rw [h1] at h
  injection h with hs hm
  exact absurd hs (by decide)

/-- The database after the witness race's student upsert. -/
def db1Race : DB :=
  { dbEx with students := dbEx.students ++ [newStudentBatch breqEx "s2"] }

/-- The state of the witness race right before the insert: Alice created by
the upsert, the concurrent row already committed. -/
def dbRaceEx : DB :=
  { db1Race with registrations := db1Race.registrations ++ [raceRow] }

/-- C5 witness: the amended statement at the concrete race instance. -/
theorem c5_witness :
    batchGuardsOk breqEx ∧
    (eventsDataOf dbEx breqEx).isEmpty = false ∧
    upsertStudentByCode dbEx breqEx "s2" = .ok ("s2", db1Race) ∧
    registerBatch dbEx breqEx memberA "s2" (fun e => e) [raceRow] =
      (.err 500 ("Failed to create registration: " ++
        "duplicate key value violates unique constraint"), dbRaceEx) :=
  ⟨by decide, by decide, by rfl,
   c5_race_batch_insert_500 dbEx breqEx memberA "s2" "s2" (fun e => e)
     [raceRow] db1Race
     ⟨"23505", "duplicate key value violates unique constraint"⟩
     (by decide) (by decide) (by rfl) (by decide) (by decide) (by rfl)⟩

/-! ### Claim C3 -/

/-- A batch request in which the second event id has no Event record. -/
def breqMissing : BatchReq :=
  { breqEx with
    event_ids := ["11111111-1111-1111-1111-111111111111",
                  "99999999-9999-9999-9999-999999999999"] }

/-- C3: evaluation of the code at the failing input.  One of the two
requested events does not exist, yet the handler does not fail with the
"One or more events not found." 400: the batch event read is only checked
for emptiness, so the handler proceeds, persists the student upsert, and the
batch insert then fails with a foreign-key 500 — contradicting the claim
that it fails with NotFound(event) before any student upsert. -/
theorem c3_missing_event_not_rejected_before_upsert :
    ((registerBatch dbEx breqMissing memberA "s1" (fun e => e) []).1 =
      .err 500 ("Failed to create registration: " ++
        "violates foreign key constraint")) ∧
    (registerBatch dbEx breqMissing memberA "s1" (fun e => e) []).2.students ≠
      dbEx.students ∧
    (registerBatch dbEx breqMissing memberA "s1" (fun e => e) []).1 ≠
      .err 400 "One or more events not found." := by
  refine ⟨by rfl, by decide, ?_⟩
  intro h
  have h1 : (registerBatch dbEx breqMissing memberA "s1" (fun e => e) []).1 =
      .err 500 ("Failed to create registration: " ++
        "violates foreign key constraint") := by rfl
  rw [h1] at h
  injection h with hs hm
  exact absurd hs (by decide)

end Accolade
